import Mathlib

/-!
Shallow embedding of `src/functions.js` from the `threejs-tinkerspace`
repository: a helper module over three.js that sets scene backgrounds,
makes a canvas responsive, renders text / flat shapes / boxes, loads GLTF
models, and keeps a shared animation registry.

Modelling conventions:
* JavaScript dynamic values are modelled by `JSVal`; `typeof` tests and
  `instanceof` tests from the source become `JSVal.typeofStr` and the
  `JSVal.instanceof...` predicates.  Strict equality `===` becomes
  equality on `JSVal`.
* Numbers are modelled by `ℚ` (every literal in the source is rational).
  An angle produced by `x * Math.PI` is modelled by `Angle`, which
  records the rational coefficient of `π` exactly.
* Division on `ℚ` is total with `x / 0 = 0`, whereas JavaScript yields
  `Infinity`/`NaN`; no property proved here depends on a division by
  zero.
* Mutation is modelled by returning updated values plus an ordered
  `Effect` trace; the three.js objects the module constructs are
  records (`Mesh`, `LineSegs`, `GltfAsset`, ...).  Library-computed
  data (triangulated shape vertices, geometry bounding boxes, loaded
  GLTF animation arrays) are parameters of the embedding.
-/

namespace ThreeTinker

/-- JavaScript dynamic values, as far as the module observes them:
`typeof` tags, `instanceof` classes, and strict equality. -/
inductive JSVal where
  | undef
  | boolV (b : Bool)
  | numV (q : ℚ)
  | strV (s : String)
  | funV (id : Nat)
  | objV (id : Nat)
  | sceneV (id : Nat)
  | canvasV (id : Nat)
  | rendererV (id : Nat)
  | perspCamV (id : Nat)
  | orthoCamV (id : Nat)
deriving DecidableEq, Repr

/-- The JavaScript `typeof` operator on a `JSVal`. -/
def JSVal.typeofStr : JSVal → String
  | .undef => "undefined"
  | .boolV _ => "boolean"
  | .numV _ => "number"
  | .strV _ => "string"
  | .funV _ => "function"
  | .objV _ => "object"
  | .sceneV _ => "object"
  | .canvasV _ => "object"
  | .rendererV _ => "object"
  | .perspCamV _ => "object"
  | .orthoCamV _ => "object"

/-- The test `x instanceof THREE.Scene`. -/
def JSVal.instanceofScene : JSVal → Bool
  | .sceneV _ => true
  | _ => false

/-- The test `x instanceof HTMLElement` (only canvas elements occur here). -/
def JSVal.instanceofHTMLElement : JSVal → Bool
  | .canvasV _ => true
  | _ => false

/-- The test `x instanceof THREE.WebGLRenderer`. -/
def JSVal.instanceofWebGLRenderer : JSVal → Bool
  | .rendererV _ => true
  | _ => false

/-- The test `x instanceof THREE.PerspectiveCamera`. -/
def JSVal.instanceofPerspectiveCamera : JSVal → Bool
  | .perspCamV _ => true
  | _ => false

/-- The test `x instanceof THREE.OrthographicCamera`. -/
def JSVal.instanceofOrthographicCamera : JSVal → Bool
  | .orthoCamV _ => true
  | _ => false

/-- Numeric payload of a `JSVal`; only applied under a
`typeof x === "number"` guard in the embedding. -/
def JSVal.toQ : JSVal → ℚ
  | .numV q => q
  | _ => 0

/-- String payload of a `JSVal`; only applied under a
`typeof x === "string"` guard in the embedding. -/
def JSVal.toStr : JSVal → String
  | .strV s => s
  | _ => ""

/-- An angle in radians, represented exactly by its coefficient of `π`
(the source only ever forms angles as `x * Math.PI`). -/
structure Angle where
  coeffOfPi : ℚ
deriving DecidableEq, Repr

/-- The source expression `x * Math.PI`. -/
def mulPi (x : ℚ) : Angle := ⟨x⟩

/-- A 2-dimensional vector (`THREE.Vector2`). -/
structure Vec2 where
  x : ℚ
  y : ℚ
deriving DecidableEq, Repr

/-- A 3-dimensional vector (`THREE.Vector3`), used for scales and
positions. -/
structure Vec3 where
  x : ℚ
  y : ℚ
  z : ℚ
deriving DecidableEq, Repr

/-- Geometries the module constructs, with the constructor arguments the
source passes. -/
inductive Geometry where
  | ring (innerRadius outerRadius thetaSegments phiSegments : ℚ)
      (thetaStart thetaLength : Angle)
  | plane (width height widthSegments heightSegments : ℚ)
  | shapeWithUV (positions : List Vec2) (uv : List ℚ)
  | circle (radius segments : ℚ) (thetaStart thetaLength : Angle)
  | box (width height depth widthSegments heightSegments depthSegments : ℚ)
  | edges (inner : Geometry)
  | textShapes (text : String) (size : ℚ)
  | text3d (text : String) (size depth curveSegments : ℚ) (bevelEnabled : Bool)
      (bevelThickness bevelSize bevelOffset bevelSegments : ℚ)
deriving DecidableEq, Repr

/-- Materials the module constructs. -/
inductive Material where
  | meshBasicColor (color : ℚ) (doubleSide : Bool)
  | meshBasicMap (url : String) (doubleSide : Bool)
  | meshPhong (color : ℚ) (flatShading : Bool)
  | lineBasic (color : ℚ)
deriving DecidableEq, Repr

/-- A mesh carries either a single material or an array of materials. -/
inductive MaterialSlot where
  | one (m : Material)
  | many (ms : List Material)
deriving DecidableEq, Repr

/-- A `THREE.Mesh` as assembled by the module. -/
structure Mesh where
  geometry : Geometry
  material : MaterialSlot
  scale : Vec3
  position : Vec3
deriving DecidableEq, Repr

/-- A `THREE.LineSegments` as assembled by the module. -/
structure LineSegs where
  geometry : Geometry
  material : Material
  scale : Vec3
  position : Vec3
deriving DecidableEq, Repr

/-- An animation mixer (`THREE.AnimationMixer` built on the loaded
model's scene); `playing` lists the clips started via
`mixer.clipAction(clip).play()`, in source order. -/
structure Mixer where
  playing : List String
deriving DecidableEq, Repr

/-- A loaded GLTF asset: the `animations` array it arrived with
(`none` models the field being `undefined`), the transform applied to
`loadedModel.scene`, and the mixer attached by the module (if any). -/
structure GltfAsset where
  animations : Option (List String)
  sceneScale : Vec3
  scenePosition : Vec3
  mixer : Option Mixer
deriving DecidableEq, Repr

/-- A visual element the module can create and register for animation. -/
inductive Element where
  | mesh (m : Mesh)
  | lineSeg (l : LineSegs)
  | gltf (g : GltfAsset)
  | gltfSceneOnly (scale position : Vec3)
deriving DecidableEq, Repr

/-- One entry of the shared animation registry `animationList`:
the element to animate and the caller's callback value. -/
structure AnimEntry where
  element : Element
  animate : JSVal
deriving DecidableEq, Repr

/-- Observable side effects of a call, in program order. -/
inductive Effect where
  | consoleError (msg : String)
  | setSceneBackground (sceneId : Nat) (value : JSVal)
  | addSchemeChangeListener (sceneId : Nat) (dark light : JSVal)
  | startImageLoad (sceneId : Nat) (url : JSVal)
  | startHdrLoad (sceneId : Nat) (url : JSVal)
  | startExrLoad (sceneId : Nat) (url : JSVal)
  | startTextureLoad (url : String)
  | sceneAdd (sceneId : Nat)
  | addWindowResizeListener
  | addOrientationChangeListener
deriving DecidableEq, Repr

/-- Scene id of a `JSVal`; only applied under an `instanceof THREE.Scene`
guard in the embedding. -/
def JSVal.sceneId : JSVal → Nat
  | .sceneV i => i
  | _ => 0

/-- Effects that apply a background source to the scene: a direct
`scene.background` assignment or the start of an image/HDR/EXR load
whose completion callback assigns it. -/
def Effect.isBackgroundSource : Effect → Bool
  | .setSceneBackground _ _ => true
  | .startImageLoad _ _ => true
  | .startHdrLoad _ _ => true
  | .startExrLoad _ _ => true
  | _ => false

/-- Effects that are diagnostic messages. -/
def Effect.isConsoleError : Effect → Bool
  | .consoleError _ => true
  | _ => false

/-- Effects that add a child to the scene. -/
def Effect.isSceneAdd : Effect → Bool
  | .sceneAdd _ => true
  | _ => false

/-- Effects that start a texture load. -/
def Effect.isTextureLoad : Effect → Bool
  | .startTextureLoad _ => true
  | _ => false

/-- Options of `setBackground`, in source order (defaults in
`BackgroundOptions.defaults`). -/
structure BackgroundOptions where
  color : ℚ
  dark : JSVal
  light : JSVal
  image : JSVal
  hdr : JSVal
  exr : JSVal
  scene : JSVal
deriving DecidableEq, Repr

/-- The JS default parameter values of `setBackground`. -/
def BackgroundOptions.defaults : BackgroundOptions :=
  ⟨0x666666, .undef, .undef, .undef, .undef, .undef, .undef⟩

/-- Embedding of `setBackground` (src/functions.js lines 90-139).
`prefersDark` is the current value of the
`(prefers-color-scheme: dark)` media query. -/
def setBackground (prefersDark : Bool) (o : BackgroundOptions) : List Effect :=
  if o.scene.instanceofScene then
    if o.dark.typeofStr ≠ "undefined" ∧ o.light.typeofStr ≠ "undefined" then
      (if prefersDark then
        [Effect.setSceneBackground o.scene.sceneId o.dark]
      else
        [Effect.setSceneBackground o.scene.sceneId o.light]) ++
      [Effect.addSchemeChangeListener o.scene.sceneId o.dark o.light]
    else if o.image.typeofStr ≠ "undefined" then
      [Effect.startImageLoad o.scene.sceneId o.image]
    else if o.hdr.typeofStr ≠ "undefined" then
      [Effect.startHdrLoad o.scene.sceneId o.hdr]
    else if o.exr.typeofStr ≠ "undefined" then
      [Effect.startExrLoad o.scene.sceneId o.exr]
    else
      [Effect.setSceneBackground o.scene.sceneId (JSVal.numV o.color)]
  else
    [Effect.consoleError "Invalid options for 'setBackground' function."]

/-- Options of `setResponsive`, in source order.  The `responsive`
field is the dynamic value tested with `typeof responsive === "function"`;
its semantics (how the policy changes the canvas's displayed size) is the
separate `Canvas → Canvas` argument of `resizeChange`. -/
structure ResponsiveArgs where
  canvas : JSVal
  renderer : JSVal
  camera : JSVal
  responsive : JSVal
deriving DecidableEq, Repr

/-- The validity condition of `setResponsive`
(src/functions.js lines 176-182). -/
def setResponsiveValid (a : ResponsiveArgs) : Bool :=
  a.canvas.instanceofHTMLElement &&
  a.renderer.instanceofWebGLRenderer &&
  (a.camera.instanceofPerspectiveCamera ||
    a.camera.instanceofOrthographicCamera) &&
  (a.responsive.typeofStr == "function")

/-- Embedding of `setResponsive` (src/functions.js lines 167-197): with
valid inputs it attaches the `resizeChange` handler to the window resize
event and the screen orientation change event; otherwise it reports a
diagnostic and attaches nothing. -/
def setResponsive (a : ResponsiveArgs) : List Effect :=
  if setResponsiveValid a then
    [Effect.addWindowResizeListener, Effect.addOrientationChangeListener]
  else
    [Effect.consoleError "Invalid options for 'setResponsive' function."]

/-- The mutable canvas state: displayed (client) size and backing buffer
size. -/
structure Canvas where
  clientWidth : ℚ
  clientHeight : ℚ
  width : ℚ
  height : ℚ
deriving DecidableEq, Repr

/-- The mutable renderer state touched by the handler. -/
structure Renderer where
  devicePixelRatioSet : ℚ
  sizeW : ℚ
  sizeH : ℚ
deriving DecidableEq, Repr

/-- The mutable camera state touched by the handler;
`projectionUpdates` counts calls to `updateProjectionMatrix`. -/
structure Camera where
  aspect : ℚ
  projectionUpdates : Nat
deriving DecidableEq, Repr

/-- The state the resize handler reads and writes. -/
structure ViewState where
  canvas : Canvas
  renderer : Renderer
  camera : Camera
deriving DecidableEq, Repr

/-- The individual actions of the resize handler, in program order. -/
inductive ResizeStep where
  | invokePolicy
  | setCanvasWidth (v : ℚ)
  | setCanvasHeight (v : ℚ)
  | setRendererPixelDensity (v : ℚ)
  | setRendererSize (w h : ℚ)
  | setCameraAspect (v : ℚ)
  | updateProjectionMatrix
deriving DecidableEq, Repr

/-- Embedding of the `resizeChange` closure (src/functions.js lines
183-191).  `policy` is the caller's responsive callback: it updates the
canvas's displayed (client) size via its style; `dpr` is
`window.devicePixelRatio`. -/
def resizeChange (policy : Canvas → Canvas) (dpr : ℚ) (s : ViewState) :
    ViewState × List ResizeStep :=
  let c0 := policy s.canvas
  let canvas1 : Canvas := ⟨c0.clientWidth, c0.clientHeight, c0.clientWidth, c0.clientHeight⟩
  let renderer1 : Renderer := ⟨dpr, c0.clientWidth, c0.clientHeight⟩
  let camera1 : Camera :=
    ⟨c0.clientWidth / c0.clientHeight, s.camera.projectionUpdates + 1⟩
  (⟨canvas1, renderer1, camera1⟩,
    [ResizeStep.invokePolicy,
     ResizeStep.setCanvasWidth c0.clientWidth,
     ResizeStep.setCanvasHeight c0.clientHeight,
     ResizeStep.setRendererPixelDensity dpr,
     ResizeStep.setRendererSize c0.clientWidth c0.clientHeight,
     ResizeStep.setCameraAspect (c0.clientWidth / c0.clientHeight),
     ResizeStep.updateProjectionMatrix])

/-- Options of `renderText`, in source order (defaults in
`TextOptions.defaults`).  `flat` is tested with `flat === true` and
`posX` with `typeof posX === "undefined"`, so both stay dynamic. -/
structure TextOptions where
  text : String
  font : String
  size : ℚ
  depth : ℚ
  flat : JSVal
  curveSegments : ℚ
  bevelEnabled : Bool
  bevelThickness : ℚ
  bevelSize : ℚ
  bevelOffset : ℚ
  bevelSegments : ℚ
  color : ℚ
  scaleX : ℚ
  scaleY : ℚ
  scaleZ : ℚ
  posX : JSVal
  posY : ℚ
  posZ : ℚ
  scene : JSVal
  animate : JSVal
deriving DecidableEq, Repr

/-- The JS default parameter values of `renderText`. -/
def TextOptions.defaults : TextOptions :=
  ⟨"Hello, World!",
   "https://raw.githubusercontent.com/mrdoob/three.js/master/examples/fonts/helvetiker_regular.typeface.json",
   10, 3, .boolV false, 12, false, 1, 1, 0, 12, 0xffffff,
   1, 1, 1, .undef, 0, 0, .undef, .undef⟩

/-- The bounding box of the built geometry as computed by the library's
`geometry.computeBoundingBox()`; only the X extent is read by the
module. -/
structure BBox where
  minX : ℚ
  maxX : ℚ
deriving DecidableEq, Repr

/-- Embedding of the body of the `FontLoader` success callback of
`renderText` (src/functions.js lines 276-323).  `bbox` is the
library-computed bounding box of the geometry this call builds. -/
def renderTextOnLoad (o : TextOptions) (bbox : BBox) (anims : List AnimEntry) :
    Mesh × List AnimEntry × List Effect :=
  let geometry : Geometry :=
    if o.flat = JSVal.boolV true then
      Geometry.textShapes o.text o.size
    else
      Geometry.text3d o.text o.size o.depth o.curveSegments o.bevelEnabled
        o.bevelThickness o.bevelSize o.bevelOffset o.bevelSegments
  let material : MaterialSlot :=
    if o.flat = JSVal.boolV true then
      MaterialSlot.one (Material.meshBasicColor o.color true)
    else
      MaterialSlot.many
        [Material.meshPhong o.color true, Material.meshPhong o.color false]
  let posX : ℚ :=
    if o.posX.typeofStr = "undefined" then
      -(1 / 2 : ℚ) * (bbox.maxX - bbox.minX)
    else
      o.posX.toQ
  let mesh : Mesh :=
    ⟨geometry, material, ⟨o.scaleX, o.scaleY, o.scaleZ⟩, ⟨posX, o.posY, o.posZ⟩⟩
  let anims2 : List AnimEntry :=
    if o.animate.typeofStr = "function" then
      anims ++ [⟨Element.mesh mesh, o.animate⟩]
    else
      anims
  let effects : List Effect :=
    if o.scene.instanceofScene then [Effect.sceneAdd o.scene.sceneId] else []
  (mesh, anims2, effects)

/-- Outcome of a one-shot asynchronous load handled by a three.js
loader. -/
inductive LoadOutcome (A : Type) where
  | success (a : A)
  | failure
deriving DecidableEq, Repr

/-- A call to a loader's `load` method as the module performs it: the
URL, the success callback, and the error callback slot (the module never
passes one, so it is `none` in every call below). -/
structure LoaderCall (A B : Type) where
  url : String
  onLoad : A → B
  onError : Option (Unit → B)

/-- Which callback runs when the load settles: on success the success
callback, on failure the error callback when installed, otherwise
nothing runs at all. -/
def runLoad {A B : Type} (c : LoaderCall A B) : LoadOutcome A → Option B
  | .success a => some (c.onLoad a)
  | .failure => Option.map (fun h => h ()) c.onError

/-- State of a promise returned by the module.  The promise executors in
the source bind only `resolve` (`new Promise(function (resolve) ...)`),
and `resolve` is called exactly once, at the end of the success
callback. -/
inductive PromiseState (A : Type) where
  | pending
  | resolved (a : A)
  | rejected
deriving DecidableEq, Repr

/-- The `FontLoader().load(font, ...)` call made by `renderText`
(src/functions.js line 275): only a success callback is passed. -/
def renderTextCall (o : TextOptions) (anims : List AnimEntry) :
    LoaderCall BBox (Mesh × List AnimEntry × List Effect) :=
  ⟨o.font, fun bbox => renderTextOnLoad o bbox anims, none⟩

/-- State of the promise returned by `renderText` after the font load
settles with the given outcome: `resolve` runs only inside the success
callback. -/
def renderTextPromise (o : TextOptions) (anims : List AnimEntry)
    (outcome : LoadOutcome BBox) : PromiseState Mesh :=
  match runLoad (renderTextCall o anims) outcome with
  | some r => PromiseState.resolved r.1
  | none => PromiseState.pending

/-- Options of `renderShape`, in source order (defaults in
`ShapeOptions.defaults`).  `radius`, `width`, `height`, `shape` and
`texture` are probed with `typeof`, so they stay dynamic. -/
structure ShapeOptions where
  radius : JSVal
  segments : ℚ
  innerRadius : ℚ
  phiSegments : ℚ
  thetaStart : ℚ
  thetaLength : ℚ
  width : JSVal
  height : JSVal
  widthSegments : ℚ
  heightSegments : ℚ
  shape : JSVal
  color : ℚ
  texture : JSVal
  scaleX : ℚ
  scaleY : ℚ
  scaleZ : ℚ
  posX : ℚ
  posY : ℚ
  posZ : ℚ
  scene : JSVal
  animate : JSVal
deriving DecidableEq, Repr

/-- The JS default parameter values of `renderShape`. -/
def ShapeOptions.defaults : ShapeOptions :=
  ⟨.undef, 128, 0, 1, 0, 2, .undef, .undef, 1, 1, .undef, 0xffffff, .undef,
   1, 1, 1, 0, 0, 0, .undef, .undef⟩

/-- Componentwise minimum of two 2-dimensional vectors. -/
def vecMin (a b : Vec2) : Vec2 := ⟨min a.x b.x, min a.y b.y⟩

/-- Componentwise maximum of two 2-dimensional vectors. -/
def vecMax (a b : Vec2) : Vec2 := ⟨max a.x b.x, max a.y b.y⟩

/-- Lower corner of `Box3().setFromBufferAttribute(position)` over the
listed vertex positions. -/
def box3Lower : List Vec2 → Vec2
  | [] => ⟨0, 0⟩
  | p :: ps => ps.foldl vecMin p

/-- Upper corner of `Box3().setFromBufferAttribute(position)` over the
listed vertex positions. -/
def box3Upper : List Vec2 → Vec2
  | [] => ⟨0, 0⟩
  | p :: ps => ps.foldl vecMax p

/-- Embedding of the UV computation of the procedural-shape branch
(src/functions.js lines 420-431): every vertex is translated by the
bounding box lower corner and divided componentwise by the box size,
and its two coordinates are pushed in order. -/
def computeShapeUV (ps : List Vec2) : List ℚ :=
  let lower := box3Lower ps
  let upper := box3Upper ps
  let sizeX := upper.x - lower.x
  let sizeY := upper.y - lower.y
  (ps.map (fun p => [(p.x - lower.x) / sizeX, (p.y - lower.y) / sizeY])).flatten

/-- Embedding of `renderShape` (src/functions.js lines 376-469).
`libPositions` is the vertex position attribute the external
`THREE.ShapeGeometry` triangulation produces for the caller's drawn
shape; it is read only in the procedural branch. -/
def renderShape (libPositions : List Vec2) (o : ShapeOptions)
    (anims : List AnimEntry) : Mesh × List AnimEntry × List Effect :=
  let geometry : Geometry :=
    if o.radius.typeofStr = "number" then
      Geometry.ring o.innerRadius o.radius.toQ o.segments o.phiSegments
        (mulPi o.thetaStart) (mulPi o.thetaLength)
    else if o.width.typeofStr = "number" ∧ o.height.typeofStr = "number" then
      Geometry.plane o.width.toQ o.height.toQ o.widthSegments o.heightSegments
    else if o.shape.typeofStr = "function" then
      Geometry.shapeWithUV libPositions (computeShapeUV libPositions)
    else
      Geometry.circle 10 o.segments (mulPi o.thetaStart) (mulPi o.thetaLength)
  let material : Material :=
    if o.texture.typeofStr = "string" then
      Material.meshBasicMap o.texture.toStr true
    else
      Material.meshBasicColor o.color true
  let mesh : Mesh :=
    ⟨geometry, MaterialSlot.one material,
     ⟨o.scaleX, o.scaleY, o.scaleZ⟩, ⟨o.posX, o.posY, o.posZ⟩⟩
  let anims2 : List AnimEntry :=
    if o.animate.typeofStr = "function" then
      anims ++ [⟨Element.mesh mesh, o.animate⟩]
    else
      anims
  let effects : List Effect :=
    (if o.texture.typeofStr = "string" then
      [Effect.startTextureLoad o.texture.toStr]
    else
      []) ++
    (if o.scene.instanceofScene then [Effect.sceneAdd o.scene.sceneId] else [])
  (mesh, anims2, effects)

/-- Options of `renderBox`, in source order (defaults in
`BoxOptions.defaults`).  `isSolid` is tested with `isSolid === true`, so
it stays dynamic; `textures` is typed as the string array the source
test `Array.isArray(textures)` expects. -/
structure BoxOptions where
  width : ℚ
  height : ℚ
  depth : ℚ
  widthSegments : ℚ
  heightSegments : ℚ
  depthSegments : ℚ
  color : ℚ
  isSolid : JSVal
  textures : List String
  scaleX : ℚ
  scaleY : ℚ
  scaleZ : ℚ
  posX : ℚ
  posY : ℚ
  posZ : ℚ
  scene : JSVal
  animate : JSVal
deriving DecidableEq, Repr

/-- The JS default parameter values of `renderBox`. -/
def BoxOptions.defaults : BoxOptions :=
  ⟨10, 10, 10, 1, 1, 1, 0xffffff, .boolV true, [],
   1, 1, 1, 0, 0, 0, .undef, .undef⟩

/-- The source expression `Array(6).fill(textures).flat()`: six copies
of the texture list, flattened. -/
def sixCopiesFlat (textures : List String) : List String :=
  (List.replicate 6 textures).flatten

/-- Embedding of `renderBox` (src/functions.js lines 496-563). -/
def renderBox (o : BoxOptions) (anims : List AnimEntry) :
    Element × List AnimEntry × List Effect :=
  let geometry : Geometry :=
    Geometry.box o.width o.height o.depth o.widthSegments o.heightSegments
      o.depthSegments
  let box : Element :=
    if o.isSolid = JSVal.boolV true then
      if o.textures.length > 0 then
        Element.mesh
          ⟨geometry,
           MaterialSlot.many
             ((sixCopiesFlat o.textures).map
               (fun p => Material.meshBasicMap p false)),
           ⟨o.scaleX, o.scaleY, o.scaleZ⟩, ⟨o.posX, o.posY, o.posZ⟩⟩
      else
        Element.mesh
          ⟨geometry, MaterialSlot.one (Material.meshPhong o.color false),
           ⟨o.scaleX, o.scaleY, o.scaleZ⟩, ⟨o.posX, o.posY, o.posZ⟩⟩
    else
      Element.lineSeg
        ⟨Geometry.edges geometry, Material.lineBasic o.color,
         ⟨o.scaleX, o.scaleY, o.scaleZ⟩, ⟨o.posX, o.posY, o.posZ⟩⟩
  let anims2 : List AnimEntry :=
    if o.animate.typeofStr = "function" then
      anims ++ [⟨box, o.animate⟩]
    else
      anims
  let effects : List Effect :=
    (if o.isSolid = JSVal.boolV true ∧ o.textures.length > 0 then
      (sixCopiesFlat o.textures).map Effect.startTextureLoad
    else
      []) ++
    (if o.scene.instanceofScene then [Effect.sceneAdd o.scene.sceneId] else [])
  (box, anims2, effects)

/-- Number of materials the created element carries. -/
def Element.materialCount : Element → Nat
  | .mesh m =>
    match m.material with
    | .one _ => 1
    | .many ms => ms.length
  | .lineSeg _ => 1
  | _ => 0

/-- Options of `renderGltfModel`, in source order (defaults in
`GltfOptions.defaults`). -/
structure GltfOptions where
  model : String
  scaleX : ℚ
  scaleY : ℚ
  scaleZ : ℚ
  posX : ℚ
  posY : ℚ
  posZ : ℚ
  scene : JSVal
  animate : JSVal
deriving DecidableEq, Repr

/-- The JS default parameter values of `renderGltfModel`. -/
def GltfOptions.defaults : GltfOptions :=
  ⟨"", 1, 1, 1, 0, 0, 0, .undef, .undef⟩

/-- JavaScript truthiness of `loadedModel.animations`: `undefined` is
falsy; an array, even an empty one, is truthy. -/
def animationsTruthy : Option (List String) → Bool
  | none => false
  | some _ => true

/-- Embedding of the body of the `GLTFLoader` success callback of
`renderGltfModel` (src/functions.js lines 596-617).  `loadedAnimations`
is the `animations` field of the loaded asset (`none` when the field is
`undefined`). -/
def renderGltfOnLoad (o : GltfOptions) (loadedAnimations : Option (List String))
    (anims : List AnimEntry) : GltfAsset × List AnimEntry × List Effect :=
  let mixer : Option Mixer :=
    if o.animate.typeofStr = "function" then
      if animationsTruthy loadedAnimations then
        some ⟨loadedAnimations.getD []⟩
      else
        none
    else
      none
  let asset : GltfAsset :=
    ⟨loadedAnimations, ⟨o.scaleX, o.scaleY, o.scaleZ⟩,
     ⟨o.posX, o.posY, o.posZ⟩, mixer⟩
  let anims2 : List AnimEntry :=
    if o.animate.typeofStr = "function" then
      anims ++ [⟨Element.gltf asset, o.animate⟩]
    else
      anims
  let effects : List Effect :=
    if o.scene.instanceofScene then [Effect.sceneAdd o.scene.sceneId] else []
  (asset, anims2, effects)

/-- The `GLTFLoader().load(model, ...)` call made by `renderGltfModel`
(src/functions.js line 596): only a success callback is passed. -/
def renderGltfCall (o : GltfOptions) (anims : List AnimEntry) :
    LoaderCall (Option (List String)) (GltfAsset × List AnimEntry × List Effect) :=
  ⟨o.model, fun la => renderGltfOnLoad o la anims, none⟩

/-- State of the promise returned by `renderGltfModel` after the model
load settles with the given outcome: `resolve` runs only inside the
success callback. -/
def renderGltfPromise (o : GltfOptions) (anims : List AnimEntry)
    (outcome : LoadOutcome (Option (List String))) : PromiseState GltfAsset :=
  match runLoad (renderGltfCall o anims) outcome with
  | some r => PromiseState.resolved r.1
  | none => PromiseState.pending

/-- Concrete `setBackground` options: both scheme colors given and an
image URL also supplied, on a valid scene. -/
def bgOptsSchemeAndImage : BackgroundOptions :=
  ⟨0x666666, .numV 0, .numV 0xffffff, .strV "bg.png", .undef, .undef, .sceneV 1⟩

/-- Concrete `renderShape` options: radius 5 and 3 segments, everything
else at its default. -/
def shapeOptsRing53 : ShapeOptions :=
  ⟨.numV 5, 3, 0, 1, 0, 2, .undef, .undef, 1, 1, .undef, 0xffffff, .undef,
   1, 1, 1, 0, 0, 0, .undef, .undef⟩

/-- Concrete `renderShape` options: width 10 and height 4, no radius,
everything else at its default. -/
def shapeOptsPlane104 : ShapeOptions :=
  ⟨.undef, 128, 0, 1, 0, 2, .numV 10, .numV 4, 1, 1, .undef, 0xffffff, .undef,
   1, 1, 1, 0, 0, 0, .undef, .undef⟩

/-- Concrete `renderShape` options: the scene option holds the number 5,
which is not a `THREE.Scene`; everything else at its default. -/
def shapeOptsInvalidScene : ShapeOptions :=
  ⟨.undef, 128, 0, 1, 0, 2, .undef, .undef, 1, 1, .undef, 0xffffff, .undef,
   1, 1, 1, 0, 0, 0, .numV 5, .undef⟩

/-- Concrete `renderBox` options: solid with two texture URLs,
everything else at its default. -/
def boxOptsTwoTextures : BoxOptions :=
  ⟨10, 10, 10, 1, 1, 1, 0xffffff, .boolV true, ["a.png", "b.png"],
   1, 1, 1, 0, 0, 0, .undef, .undef⟩

/-- Concrete `renderBox` options: `isSolid` holds the truthy number 1
(not the boolean `true`) and two texture URLs are supplied. -/
def boxOptsTruthyOne : BoxOptions :=
  ⟨10, 10, 10, 1, 1, 1, 0xffffff, .numV 1, ["a.png", "b.png"],
   1, 1, 1, 0, 0, 0, .undef, .undef⟩

/-- C1: for every call to `setBackground` with a valid scene, exactly one
background source is applied, chosen by the fixed precedence: if both a
dark and a light color are given, the color-scheme branch wins and a
scheme-change listener is registered; else an image URL wins; else an
HDR URL wins; else an EXR URL wins; else the flat default/solid color is
applied — regardless of how many lower-priority options are also
supplied. -/
theorem setBackground_precedence (prefersDark : Bool) (o : BackgroundOptions)
    (hs : o.scene.instanceofScene = true) :
    ((setBackground prefersDark o).filter Effect.isBackgroundSource).length = 1 ∧
    (o.dark.typeofStr ≠ "undefined" → o.light.typeofStr ≠ "undefined" →
      (setBackground prefersDark o).filter Effect.isBackgroundSource =
        [Effect.setSceneBackground o.scene.sceneId
          (if prefersDark then o.dark else o.light)] ∧
      Effect.addSchemeChangeListener o.scene.sceneId o.dark o.light ∈
        setBackground prefersDark o) ∧
    (¬(o.dark.typeofStr ≠ "undefined" ∧ o.light.typeofStr ≠ "undefined") →
      o.image.typeofStr ≠ "undefined" →
      setBackground prefersDark o =
        [Effect.startImageLoad o.scene.sceneId o.image]) ∧
    (¬(o.dark.typeofStr ≠ "undefined" ∧ o.light.typeofStr ≠ "undefined") →
      o.image.typeofStr = "undefined" → o.hdr.typeofStr ≠ "undefined" →
      setBackground prefersDark o =
        [Effect.startHdrLoad o.scene.sceneId o.hdr]) ∧
    (¬(o.dark.typeofStr ≠ "undefined" ∧ o.light.typeofStr ≠ "undefined") →
      o.image.typeofStr = "undefined" → o.hdr.typeofStr = "undefined" →
      o.exr.typeofStr ≠ "undefined" →
      setBackground prefersDark o =
        [Effect.startExrLoad o.scene.sceneId o.exr]) ∧
    (¬(o.dark.typeofStr ≠ "undefined" ∧ o.light.typeofStr ≠ "undefined") →
      o.image.typeofStr = "undefined" → o.hdr.typeofStr = "undefined" →
      o.exr.typeofStr = "undefined" →
      setBackground prefersDark o =
        [Effect.setSceneBackground o.scene.sceneId (JSVal.numV o.color)]) := by
  cases prefersDark <;>
    simp only [setBackground, hs, if_true] <;>
    split_ifs <;>
    simp_all [Effect.isBackgroundSource, List.filter]

/-- C1 witness: with both scheme colors and an image URL supplied on a
valid scene, in dark mode, the single applied background source is the
dark scheme color. -/
theorem setBackground_precedence_witness :
    (setBackground true bgOptsSchemeAndImage).filter Effect.isBackgroundSource =
      [Effect.setSceneBackground 1 (.numV 0)] := by
  have h :=
    (setBackground_precedence true bgOptsSchemeAndImage rfl).2.1
      (by decide) (by decide)
  simpa using h.1

/-- C5: in the font-load callback of `renderText`, when no explicit X
position is given the mesh's X position equals the negative half-width
of the computed geometry bounding box, so the text is horizontally
centered at the origin; an explicitly given X position is used
unchanged. -/
theorem renderText_centering (o : TextOptions) (bbox : BBox)
    (anims : List AnimEntry) :
    (o.posX.typeofStr = "undefined" →
      (renderTextOnLoad o bbox anims).1.position.x =
        -(1 / 2 : ℚ) * (bbox.maxX - bbox.minX)) ∧
    (o.posX.typeofStr ≠ "undefined" →
      (renderTextOnLoad o bbox anims).1.position.x = o.posX.toQ) := by
  simp only [renderTextOnLoad]
  split_ifs <;> simp_all

/-- C5 witness: with default options (no explicit X position) and a
bounding box spanning from 0 to 30, the text mesh sits at X = -15. -/
theorem renderText_centering_witness :
    (renderTextOnLoad TextOptions.defaults ⟨0, 30⟩ []).1.position.x = -15 := by
  have h := (renderText_centering TextOptions.defaults ⟨0, 30⟩ []).1 (by decide)
  rw [h]
  norm_num

/-- C6: `renderShape` selects its geometry by precedence — a numeric
radius yields a ring with the given inner radius, segment count, and
start/sweep angles as multiples of pi; else numeric width and height
yield a plane of those dimensions; else a draw callback yields a filled
shape with UVs computed by normalizing each vertex into the shape's
bounding box; else the default circle of radius 10.  In particular
radius 5 with 3 segments gives a 3-segment ring of outer radius 5, and
width 10, height 4 with no radius gives a 10-by-4 plane. -/
theorem renderShape_geometry_precedence (libPositions : List Vec2)
    (o : ShapeOptions) (anims : List AnimEntry) :
    (o.radius.typeofStr = "number" →
      (renderShape libPositions o anims).1.geometry =
        Geometry.ring o.innerRadius o.radius.toQ o.segments o.phiSegments
          (mulPi o.thetaStart) (mulPi o.thetaLength)) ∧
    (o.radius.typeofStr ≠ "number" →
      o.width.typeofStr = "number" → o.height.typeofStr = "number" →
      (renderShape libPositions o anims).1.geometry =
        Geometry.plane o.width.toQ o.height.toQ o.widthSegments
          o.heightSegments) ∧
    (o.radius.typeofStr ≠ "number" →
      ¬(o.width.typeofStr = "number" ∧ o.height.typeofStr = "number") →
      o.shape.typeofStr = "function" →
      (renderShape libPositions o anims).1.geometry =
        Geometry.shapeWithUV libPositions (computeShapeUV libPositions)) ∧
    (o.radius.typeofStr ≠ "number" →
      ¬(o.width.typeofStr = "number" ∧ o.height.typeofStr = "number") →
      o.shape.typeofStr ≠ "function" →
      (renderShape libPositions o anims).1.geometry =
        Geometry.circle 10 o.segments (mulPi o.thetaStart)
          (mulPi o.thetaLength)) ∧
    (renderShape [] shapeOptsRing53 []).1.geometry =
      Geometry.ring 0 5 3 1 (mulPi 0) (mulPi 2) ∧
    (renderShape [] shapeOptsPlane104 []).1.geometry =
      Geometry.plane 10 4 1 1 ∧
    (renderShape [] ShapeOptions.defaults []).1.geometry =
      Geometry.circle 10 128 (mulPi 0) (mulPi 2) := by
  refine ⟨?_, ?_, ?_, ?_, by decide, by decide, by decide⟩ <;>
    (simp only [renderShape]; split_ifs <;> simp_all)

/-- C6 witness: the ring branch fires for radius 5 with 3 segments. -/
theorem renderShape_geometry_precedence_witness :
    (renderShape [] shapeOptsRing53 []).1.geometry =
      Geometry.ring 0 5 3 1 (mulPi 0) (mulPi 2) :=
  (renderShape_geometry_precedence [] shapeOptsRing53 []).1 (by decide)

/-- C10: `renderBox` tests `isSolid` by strict equality with the boolean
`true`: for every other value (including truthy values such as the
number 1) it produces the wireframe edge-outline line set with the flat
color and starts no texture load, ignoring any supplied texture URLs. -/
theorem renderBox_isSolid_strict (o : BoxOptions) (anims : List AnimEntry)
    (h : o.isSolid ≠ JSVal.boolV true) :
    (renderBox o anims).1 =
      Element.lineSeg
        ⟨Geometry.edges
          (Geometry.box o.width o.height o.depth o.widthSegments
            o.heightSegments o.depthSegments),
         Material.lineBasic o.color,
         ⟨o.scaleX, o.scaleY, o.scaleZ⟩, ⟨o.posX, o.posY, o.posZ⟩⟩ ∧
    (renderBox o anims).2.2.filter Effect.isTextureLoad = [] := by
  simp only [renderBox]
  split_ifs <;> simp_all [Effect.isTextureLoad, List.filter]

/-- C10 witness: with `isSolid` holding the truthy number 1 and two
texture URLs supplied, the result is the wireframe line set and no
texture load starts. -/
theorem renderBox_isSolid_strict_witness :
    (renderBox boxOptsTruthyOne []).1 =
      Element.lineSeg
        ⟨Geometry.edges (Geometry.box 10 10 10 1 1 1),
         Material.lineBasic 0xffffff, ⟨1, 1, 1⟩, ⟨0, 0, 0⟩⟩ :=
  (renderBox_isSolid_strict boxOptsTruthyOne [] (by decide)).1

/-- Six flattened copies of a list are six times as long. -/
theorem sixCopiesFlat_length (l : List String) :
    (sixCopiesFlat l).length = 6 * l.length := by
  simp only [sixCopiesFlat]
  rw [show (6 : Nat) = 5 + 1 from rfl, List.replicate_succ]
  rw [show (5 : Nat) = 4 + 1 from rfl, List.replicate_succ]
  rw [show (4 : Nat) = 3 + 1 from rfl, List.replicate_succ]
  rw [show (3 : Nat) = 2 + 1 from rfl, List.replicate_succ]
  rw [show (2 : Nat) = 1 + 1 from rfl, List.replicate_succ]
  simp [List.flatten]
  ring

/-- C2 counterexample: a solid box with two texture URLs carries twelve
per-face materials (the two-element list repeated six times), not
exactly six as the claim states. -/
theorem renderBox_six_materials_cex :
    (renderBox boxOptsTwoTextures []).1.materialCount = 12 ∧
    (renderBox boxOptsTwoTextures []).1.materialCount ≠ 6 := by
  decide

/-- C2 amended: for every `renderBox` call with `isSolid` strictly equal
to `true` and a non-empty list of n texture URLs, the solid box carries
6·n per-face materials — the texture list concatenated six times — which
is exactly six only when a single URL is given; with an empty texture
list it carries a single Phong color material. -/
theorem renderBox_solid_materials (o : BoxOptions) (anims : List AnimEntry)
    (hs : o.isSolid = JSVal.boolV true) :
    (o.textures.length > 0 →
      (renderBox o anims).1 =
        Element.mesh
          ⟨Geometry.box o.width o.height o.depth o.widthSegments
             o.heightSegments o.depthSegments,
           MaterialSlot.many
             ((sixCopiesFlat o.textures).map
               (fun p => Material.meshBasicMap p false)),
           ⟨o.scaleX, o.scaleY, o.scaleZ⟩, ⟨o.posX, o.posY, o.posZ⟩⟩ ∧
      (renderBox o anims).1.materialCount = 6 * o.textures.length) ∧
    (o.textures = [] →
      (renderBox o anims).1 =
        Element.mesh
          ⟨Geometry.box o.width o.height o.depth o.widthSegments
             o.heightSegments o.depthSegments,
           MaterialSlot.one (Material.meshPhong o.color false),
           ⟨o.scaleX, o.scaleY, o.scaleZ⟩, ⟨o.posX, o.posY, o.posZ⟩⟩) := by
  constructor
  · intro hn
    refine ⟨?_, ?_⟩ <;>
      simp [renderBox, hs, hn, Element.materialCount, sixCopiesFlat_length]
  · intro he
    simp [renderBox, hs, he]

/-- C2 amended witness: a solid box with a single texture URL carries
exactly six per-face materials. -/
theorem renderBox_solid_materials_witness :
    (renderBox
        ⟨10, 10, 10, 1, 1, 1, 0xffffff, .boolV true, ["a.png"],
         1, 1, 1, 0, 0, 0, .undef, .undef⟩ []).1.materialCount = 6 :=
  ((renderBox_solid_materials
      ⟨10, 10, 10, 1, 1, 1, 0xffffff, .boolV true, ["a.png"],
       1, 1, 1, 0, 0, 0, .undef, .undef⟩ [] rfl).1 (by decide)).2

/-- C3 counterexample: calling `renderShape` with an invalid-typed scene
(the number 5) emits no diagnostic at all and still creates and returns
a mesh, contradicting "emits a diagnostic and no object is created". -/
theorem no_validation_cex :
    (renderShape [] shapeOptsInvalidScene []).2.2 = [] ∧
    (renderShape [] shapeOptsInvalidScene []).1 =
      ⟨Geometry.circle 10 128 (mulPi 0) (mulPi 2),
       MaterialSlot.one (Material.meshBasicColor 0xffffff true),
       ⟨1, 1, 1⟩, ⟨0, 0, 0⟩⟩ := by
  decide

/-- C3 amended: only `setBackground` and `setResponsive` validate their
inputs, and on invalid input each emits exactly one diagnostic and
performs no other effect; the shape, box, text and GLTF renderers
perform no validation — they never emit a diagnostic, an object is still
created and returned, and an invalid-typed scene only means the object
is not added to it (scene child count unchanged). -/
theorem validation_scope (prefersDark : Bool) (bg : BackgroundOptions)
    (ra : ResponsiveArgs) (libPositions : List Vec2) (sOpt : ShapeOptions)
    (bOpt : BoxOptions) (tOpt : TextOptions) (bbox : BBox)
    (gOpt : GltfOptions) (la : Option (List String))
    (anims : List AnimEntry) :
    (bg.scene.instanceofScene = false →
      setBackground prefersDark bg =
        [Effect.consoleError "Invalid options for 'setBackground' function."]) ∧
    (setResponsiveValid ra = false →
      setResponsive ra =
        [Effect.consoleError "Invalid options for 'setResponsive' function."]) ∧
    ((renderShape libPositions sOpt anims).2.2.filter Effect.isConsoleError = [] ∧
      (sOpt.scene.instanceofScene = false →
        (renderShape libPositions sOpt anims).2.2.filter Effect.isSceneAdd = [])) ∧
    ((renderBox bOpt anims).2.2.filter Effect.isConsoleError = [] ∧
      (bOpt.scene.instanceofScene = false →
        (renderBox bOpt anims).2.2.filter Effect.isSceneAdd = [])) ∧
    ((renderTextOnLoad tOpt bbox anims).2.2.filter Effect.isConsoleError = [] ∧
      (tOpt.scene.instanceofScene = false →
        (renderTextOnLoad tOpt bbox anims).2.2.filter Effect.isSceneAdd = [])) ∧
    ((renderGltfOnLoad gOpt la anims).2.2.filter Effect.isConsoleError = [] ∧
      (gOpt.scene.instanceofScene = false →
        (renderGltfOnLoad gOpt la anims).2.2.filter Effect.isSceneAdd = [])) := by
  refine ⟨?_, ?_, ?_, ?_, ?_, ?_⟩
  · intro h
    simp [setBackground, h]
  · intro h
    simp [setResponsive, h]
  · constructor
    · simp only [renderShape]
      split_ifs <;>
        simp_all [Effect.isConsoleError, Effect.isSceneAdd, List.filter]
    · intro h
      simp only [renderShape]
      split_ifs <;>
        simp_all [Effect.isConsoleError, Effect.isSceneAdd, List.filter]
  · constructor
    · simp only [renderBox]
      split_ifs <;>
        simp_all [Effect.isConsoleError, Effect.isSceneAdd, List.filter,
          List.filter_map]
    · intro h
      simp only [renderBox]
      split_ifs <;>
        simp_all [Effect.isConsoleError, Effect.isSceneAdd, List.filter,
          List.filter_map]
  · constructor
    · simp only [renderTextOnLoad]
      split_ifs <;> simp_all [Effect.isConsoleError, List.filter]
    · intro h
      simp only [renderTextOnLoad]
      split_ifs <;> simp_all [Effect.isSceneAdd, List.filter]
  · constructor
    · simp only [renderGltfOnLoad]
      split_ifs <;> simp_all [Effect.isConsoleError, List.filter]
    · intro h
      simp only [renderGltfOnLoad]
      split_ifs <;> simp_all [Effect.isSceneAdd, List.filter]

/-- C3 amended witness: `setBackground` on a non-scene target emits the
diagnostic and nothing else, while `renderShape` with a non-scene target
emits nothing and still returns a mesh. -/
theorem validation_scope_witness :
    setBackground true
        ⟨0x666666, .undef, .undef, .undef, .undef, .undef, .numV 5⟩ =
      [Effect.consoleError "Invalid options for 'setBackground' function."] ∧
    (renderShape [] shapeOptsInvalidScene []).2.2.filter
        Effect.isConsoleError = [] :=
  ⟨(validation_scope true
      ⟨0x666666, .undef, .undef, .undef, .undef, .undef, .numV 5⟩
      ⟨.undef, .undef, .undef, .undef⟩ [] shapeOptsInvalidScene
      BoxOptions.defaults TextOptions.defaults ⟨0, 0⟩ GltfOptions.defaults
      none []).1 rfl,
   ((validation_scope true
      ⟨0x666666, .undef, .undef, .undef, .undef, .undef, .numV 5⟩
      ⟨.undef, .undef, .undef, .undef⟩ [] shapeOptsInvalidScene
      BoxOptions.defaults TextOptions.defaults ⟨0, 0⟩ GltfOptions.defaults
      none []).2.2.1).1⟩

/-- C4: when `renderGltfModel`'s success callback runs with an animation
callback supplied and the loaded asset carrying animation clips, it
creates one mixer, starts every clip immediately and unconditionally,
attaches the mixer to the loaded asset, and registers the full loaded
asset (not a sub-mesh) together with the caller's callback in the
animation registry; without a callback none of this happens. -/
theorem renderGltf_animation (o : GltfOptions) (clips : List String)
    (la : Option (List String)) (anims : List AnimEntry) :
    (o.animate.typeofStr = "function" →
      (renderGltfOnLoad o (some clips) anims).1.mixer = some ⟨clips⟩ ∧
      (renderGltfOnLoad o (some clips) anims).2.1 =
        anims ++
          [⟨Element.gltf (renderGltfOnLoad o (some clips) anims).1,
            o.animate⟩]) ∧
    (o.animate.typeofStr ≠ "function" →
      (renderGltfOnLoad o la anims).1.mixer = none ∧
      (renderGltfOnLoad o la anims).2.1 = anims) := by
  constructor
  · intro h
    simp [renderGltfOnLoad, h, animationsTruthy]
  · intro h
    simp [renderGltfOnLoad, h]

/-- C4 witness: with a callback and two clips, the mixer plays both
clips and the whole asset is registered with the callback. -/
theorem renderGltf_animation_witness :
    (renderGltfOnLoad
        ⟨"m.glb", 1, 1, 1, 0, 0, 0, .undef, .funV 7⟩
        (some ["walk", "run"]) []).1.mixer = some ⟨["walk", "run"]⟩ ∧
    (renderGltfOnLoad
        ⟨"m.glb", 1, 1, 1, 0, 0, 0, .undef, .funV 7⟩
        (some ["walk", "run"]) []).2.1 =
      [⟨Element.gltf
          (renderGltfOnLoad
            ⟨"m.glb", 1, 1, 1, 0, 0, 0, .undef, .funV 7⟩
            (some ["walk", "run"]) []).1,
        .funV 7⟩] :=
  (renderGltf_animation ⟨"m.glb", 1, 1, 1, 0, 0, 0, .undef, .funV 7⟩
    ["walk", "run"] none [] ).1 (by decide)

/-- C7: the shared animation registry is append-only — every renderer or
loader call made with an animation callback appends exactly one new
entry whose element field is the newly created visual element, a call
without a callback appends none, and no operation removes an entry (the
result is always the old list, possibly extended by one entry). -/
theorem animation_registry_append (libPositions : List Vec2)
    (sOpt : ShapeOptions) (bOpt : BoxOptions) (tOpt : TextOptions)
    (bbox : BBox) (gOpt : GltfOptions) (la : Option (List String))
    (anims : List AnimEntry) :
    ((sOpt.animate.typeofStr = "function" →
       (renderShape libPositions sOpt anims).2.1 =
         anims ++
           [⟨Element.mesh (renderShape libPositions sOpt anims).1,
             sOpt.animate⟩]) ∧
     (sOpt.animate.typeofStr ≠ "function" →
       (renderShape libPositions sOpt anims).2.1 = anims)) ∧
    ((bOpt.animate.typeofStr = "function" →
       (renderBox bOpt anims).2.1 =
         anims ++ [⟨(renderBox bOpt anims).1, bOpt.animate⟩]) ∧
     (bOpt.animate.typeofStr ≠ "function" →
       (renderBox bOpt anims).2.1 = anims)) ∧
    ((tOpt.animate.typeofStr = "function" →
       (renderTextOnLoad tOpt bbox anims).2.1 =
         anims ++
           [⟨Element.mesh (renderTextOnLoad tOpt bbox anims).1,
             tOpt.animate⟩]) ∧
     (tOpt.animate.typeofStr ≠ "function" →
       (renderTextOnLoad tOpt bbox anims).2.1 = anims)) ∧
    ((gOpt.animate.typeofStr = "function" →
       (renderGltfOnLoad gOpt la anims).2.1 =
         anims ++
           [⟨Element.gltf (renderGltfOnLoad gOpt la anims).1,
             gOpt.animate⟩]) ∧
     (gOpt.animate.typeofStr ≠ "function" →
       (renderGltfOnLoad gOpt la anims).2.1 = anims)) := by
  refine ⟨⟨?_, ?_⟩, ⟨?_, ?_⟩, ⟨?_, ?_⟩, ⟨?_, ?_⟩⟩ <;> intro h
  · simp only [renderShape]
    split_ifs <;> simp_all
  · simp only [renderShape]
    split_ifs <;> simp_all
  · simp only [renderBox]
    split_ifs <;> simp_all
  · simp only [renderBox]
    split_ifs <;> simp_all
  · simp only [renderTextOnLoad]
    split_ifs <;> simp_all
  · simp only [renderTextOnLoad]
    split_ifs <;> simp_all
  · simp only [renderGltfOnLoad]
    split_ifs <;> simp_all
  · simp only [renderGltfOnLoad]
    split_ifs <;> simp_all

/-- C7 witness: a shape call with a callback appends exactly its own
entry to an empty registry, and one without a callback appends none. -/
theorem animation_registry_append_witness :
    (renderShape []
        ⟨.undef, 128, 0, 1, 0, 2, .undef, .undef, 1, 1, .undef, 0xffffff,
         .undef, 1, 1, 1, 0, 0, 0, .undef, .funV 3⟩ []).2.1 =
      [⟨Element.mesh
          (renderShape []
            ⟨.undef, 128, 0, 1, 0, 2, .undef, .undef, 1, 1, .undef, 0xffffff,
             .undef, 1, 1, 1, 0, 0, 0, .undef, .funV 3⟩ []).1,
        .funV 3⟩] ∧
    (renderShape [] ShapeOptions.defaults []).2.1 = [] :=
  ⟨(animation_registry_append []
      ⟨.undef, 128, 0, 1, 0, 2, .undef, .undef, 1, 1, .undef, 0xffffff,
       .undef, 1, 1, 1, 0, 0, 0, .undef, .funV 3⟩
      BoxOptions.defaults TextOptions.defaults ⟨0, 0⟩ GltfOptions.defaults
      none []).1.1 (by decide),
   (animation_registry_append [] ShapeOptions.defaults BoxOptions.defaults
      TextOptions.defaults ⟨0, 0⟩ GltfOptions.defaults none []).1.2
      (by decide)⟩

/-- C8: with valid inputs `setResponsive` attaches the resize handler to
both the window resize and the orientation change events, and on every
event the handler, in this order, invokes the resize policy, copies the
canvas client width and height into its backing width and height, sets
the renderer's pixel density and size, sets the camera aspect to
clientWidth divided by clientHeight and updates the projection matrix —
so afterwards the backing size equals the displayed size and the camera
aspect equals clientWidth over clientHeight. -/
theorem responsive_resize (ra : ResponsiveArgs) (policy : Canvas → Canvas)
    (dpr : ℚ) (s : ViewState) (hv : setResponsiveValid ra = true) :
    setResponsive ra =
      [Effect.addWindowResizeListener, Effect.addOrientationChangeListener] ∧
    (resizeChange policy dpr s).2 =
      [ResizeStep.invokePolicy,
       ResizeStep.setCanvasWidth (policy s.canvas).clientWidth,
       ResizeStep.setCanvasHeight (policy s.canvas).clientHeight,
       ResizeStep.setRendererPixelDensity dpr,
       ResizeStep.setRendererSize (policy s.canvas).clientWidth
         (policy s.canvas).clientHeight,
       ResizeStep.setCameraAspect
         ((policy s.canvas).clientWidth / (policy s.canvas).clientHeight),
       ResizeStep.updateProjectionMatrix] ∧
    (resizeChange policy dpr s).1.canvas.width =
      (resizeChange policy dpr s).1.canvas.clientWidth ∧
    (resizeChange policy dpr s).1.canvas.height =
      (resizeChange policy dpr s).1.canvas.clientHeight ∧
    (resizeChange policy dpr s).1.camera.aspect =
      (resizeChange policy dpr s).1.canvas.clientWidth /
        (resizeChange policy dpr s).1.canvas.clientHeight ∧
    (resizeChange policy dpr s).1.renderer.devicePixelRatioSet = dpr ∧
    (resizeChange policy dpr s).1.renderer.sizeW =
      (resizeChange policy dpr s).1.canvas.clientWidth ∧
    (resizeChange policy dpr s).1.renderer.sizeH =
      (resizeChange policy dpr s).1.canvas.clientHeight ∧
    (resizeChange policy dpr s).1.camera.projectionUpdates =
      s.camera.projectionUpdates + 1 := by
  refine ⟨by simp [setResponsive, hv], ?_⟩
  simp [resizeChange]

/-- C8 witness: a valid binder call plus a handler run with a policy
that displays the canvas at 800 by 600 yields backing size 800 by 600
and camera aspect 4/3. -/
theorem responsive_resize_witness :
    setResponsive ⟨.canvasV 0, .rendererV 0, .perspCamV 0, .funV 0⟩ =
      [Effect.addWindowResizeListener,
       Effect.addOrientationChangeListener] ∧
    (resizeChange (fun _ => ⟨800, 600, 0, 0⟩) 2
        ⟨⟨1, 1, 1, 1⟩, ⟨1, 1, 1⟩, ⟨1, 0⟩⟩).1.camera.aspect =
      (resizeChange (fun _ => ⟨800, 600, 0, 0⟩) 2
        ⟨⟨1, 1, 1, 1⟩, ⟨1, 1, 1⟩, ⟨1, 0⟩⟩).1.canvas.clientWidth /
        (resizeChange (fun _ => ⟨800, 600, 0, 0⟩) 2
          ⟨⟨1, 1, 1, 1⟩, ⟨1, 1, 1⟩, ⟨1, 0⟩⟩).1.canvas.clientHeight :=
  ⟨(responsive_resize ⟨.canvasV 0, .rendererV 0, .perspCamV 0, .funV 0⟩
      (fun _ => ⟨800, 600, 0, 0⟩) 2 ⟨⟨1, 1, 1, 1⟩, ⟨1, 1, 1⟩, ⟨1, 0⟩⟩
      (by decide)).1,
   (responsive_resize ⟨.canvasV 0, .rendererV 0, .perspCamV 0, .funV 0⟩
      (fun _ => ⟨800, 600, 0, 0⟩) 2 ⟨⟨1, 1, 1, 1⟩, ⟨1, 1, 1⟩, ⟨1, 0⟩⟩
      (by decide)).2.2.2.2.1⟩

/-- C9: the promises returned by `renderText` and `renderGltfModel` can
only resolve, never reject — no error callback is installed on either
loader call, so on load failure no callback runs and the promise stays
pending forever. -/
theorem load_promises_never_reject (tOpt : TextOptions) (gOpt : GltfOptions)
    (anims : List AnimEntry) (tOut : LoadOutcome BBox)
    (gOut : LoadOutcome (Option (List String))) :
    (renderTextCall tOpt anims).onError = none ∧
    (renderGltfCall gOpt anims).onError = none ∧
    renderTextPromise tOpt anims tOut ≠ PromiseState.rejected ∧
    renderGltfPromise gOpt anims gOut ≠ PromiseState.rejected ∧
    renderTextPromise tOpt anims LoadOutcome.failure = PromiseState.pending ∧
    renderGltfPromise gOpt anims LoadOutcome.failure =
      PromiseState.pending := by
  refine ⟨rfl, rfl, ?_, ?_, rfl, rfl⟩
  · cases tOut <;> simp [renderTextPromise, runLoad, renderTextCall]
  · cases gOut <;> simp [renderGltfPromise, runLoad, renderGltfCall]

/-- C9 witness: on a failed font load with default options the text
promise is still pending. -/
theorem load_promises_never_reject_witness :
    renderTextPromise TextOptions.defaults [] LoadOutcome.failure =
      PromiseState.pending :=
  (load_promises_never_reject TextOptions.defaults GltfOptions.defaults []
    LoadOutcome.failure LoadOutcome.failure).2.2.2.2.1

end ThreeTinker



